import Mathlib

set_option maxHeartbeats 1000000

namespace DateApp

/-- Session phase, `phase` field of a chatSessions document
(`"speed_dating" | "extended"`). -/
inductive Phase
  | speed_dating
  | extended
deriving DecidableEq

/-- Session status (`"active" | "waiting_reveal" | "ended"`). -/
inductive SessionStatus
  | active
  | waiting_reveal
  | ended
deriving DecidableEq

/-- Chat-request status (`"pending" | "accepted" | "declined"`). -/
inductive RequestStatus
  | pending
  | accepted
  | declined
deriving DecidableEq

/-- A `users` document. Document ids are modelled as `Nat`. -/
structure User where
  id : Nat
  clerkId : String
  email : String
  name : String
  image : Option String
  emailVerified : Bool
  isInQueue : Bool
  createdAt : Nat
  updatedAt : Nat
deriving DecidableEq

/-- A `chatSessions` document. Optional fields of the Convex schema are
`Option`-valued (`undefined` is `none`). -/
structure ChatSession where
  id : Nat
  user1Id : Nat
  user2Id : Nat
  phase : Phase
  status : SessionStatus
  startedAt : Nat
  speedDatingEndsAt : Option Nat
  endedAt : Option Nat
  user1WantsContinue : Option Bool
  user2WantsContinue : Option Bool
  user1WantsSkip : Option Bool
  user2WantsSkip : Option Bool
deriving DecidableEq

/-- A `matches` document. -/
structure Match where
  id : Nat
  user1Id : Nat
  user2Id : Nat
  chatSessionId : Nat
  matchedAt : Nat
deriving DecidableEq

/-- A `chatRequests` document. -/
structure ChatRequest where
  id : Nat
  fromUserId : Nat
  toUserId : Nat
  matchId : Nat
  status : RequestStatus
  createdAt : Nat
  respondedAt : Option Nat
deriving DecidableEq

/-- A `messages` document. -/
structure Message where
  id : Nat
  chatSessionId : Nat
  senderId : Nat
  content : String
  createdAt : Nat
deriving DecidableEq

/-- The whole Convex database. Lists are in `_creationTime` order (inserts
append at the end), matching the scan order of `filter`/`first`/`collect`.
`nextId` is the id generator for `ctx.db.insert`. -/
structure DB where
  users : List User
  chatSessions : List ChatSession
  matchRecords : List Match
  chatRequests : List ChatRequest
  messages : List Message
  nextId : Nat
deriving DecidableEq

/-- The empty database. -/
def dbEmpty : DB :=
  { users := [], chatSessions := [], matchRecords := [], chatRequests := [],
    messages := [], nextId := 0 }

/-- A resolved caller identity (`ctx.auth.getUserIdentity()` result, non-null:
all modelled mutations are called by an authenticated caller). -/
structure Identity where
  subject : String
  email : Option String
  name : Option String
  givenName : Option String
  nickname : Option String
  pictureUrl : Option String
  emailVerified : Option Bool
deriving DecidableEq

/-- JavaScript `a || b` for an optional string `a`: falls through on
`undefined` and on the empty string. -/
def jsStr (o : Option String) (d : String) : String :=
  match o with
  | none => d
  | some s => if s = "" then d else s

/-- JavaScript truthiness of an optional boolean (`undefined` is falsy). -/
def jsTruthy (o : Option Bool) : Bool := o.getD false

/-- All users whose `clerkId` equals `cid`, in creation order
(the `by_clerk_id` index range). -/
def usersWithClerk (db : DB) (cid : String) : List User :=
  db.users.filter (fun u => decide (u.clerkId = cid))

/-- Convex `.unique()` over the `by_clerk_id` index: `null` when absent,
throws when more than one document matches. -/
def uniqueUser (db : DB) (cid : String) : Except String (Option User) :=
  match usersWithClerk db cid with
  | [] => .ok none
  | [u] => .ok (some u)
  | _ => .error "unique() query returned more than one document"

/-- Look up a chat session by id (`ctx.db.get`). -/
def getSession (db : DB) (sid : Nat) : Option ChatSession :=
  db.chatSessions.find? (fun s => decide (s.id = sid))

/-- Look up a match by id (`ctx.db.get`). -/
def getMatch (db : DB) (mid : Nat) : Option Match :=
  db.matchRecords.find? (fun m => decide (m.id = mid))

/-- Look up a chat request by id (`ctx.db.get`). -/
def getRequest (db : DB) (rid : Nat) : Option ChatRequest :=
  db.chatRequests.find? (fun r => decide (r.id = rid))

/-- `ctx.db.patch` on a chat session. -/
def patchSession (db : DB) (sid : Nat) (f : ChatSession → ChatSession) : DB :=
  { db with chatSessions := db.chatSessions.map (fun s => if s.id = sid then f s else s) }

/-- `ctx.db.patch(userId, { isInQueue: b })`. -/
def patchUserQueue (db : DB) (uid : Nat) (b : Bool) : DB :=
  { db with users := db.users.map (fun u => if u.id = uid then { u with isInQueue := b } else u) }

/-- `ctx.db.patch(matchId, { chatSessionId: sid })`. -/
def patchMatchSession (db : DB) (mid : Nat) (sid : Nat) : DB :=
  { db with matchRecords := db.matchRecords.map (fun m => if m.id = mid then { m with chatSessionId := sid } else m) }

/-- `ctx.db.patch(requestId, { status, respondedAt })`. -/
def patchRequestStatus (db : DB) (rid : Nat) (st : RequestStatus) (now : Nat) : DB :=
  { db with chatRequests := db.chatRequests.map (fun r => if r.id = rid then { r with status := st, respondedAt := some now } else r) }

/-- Predicate of the active-session query of `queue.join` / `queue.status`:
the user is either participant and the session status is active. -/
def activeFor (uid : Nat) (s : ChatSession) : Bool :=
  (decide (s.user1Id = uid) || decide (s.user2Id = uid)) && decide (s.status = SessionStatus.active)

/-- `.filter(...).first()` of the active-session query. -/
def findActiveSession (db : DB) (uid : Nat) : Option ChatSession :=
  db.chatSessions.find? (activeFor uid)

/-- The pending-request query of `chatRequests.send`. -/
def pendingFor (db : DB) (mid : Nat) : Option ChatRequest :=
  db.chatRequests.find? (fun r => decide (r.matchId = mid) && decide (r.status = RequestStatus.pending))

/-- The active-session-between-the-pair query of `chatRequests.send`
(both participant orders). -/
def activeBetween (db : DB) (m : Match) : Option ChatSession :=
  db.chatSessions.find? (fun s =>
    ((decide (s.user1Id = m.user1Id) && decide (s.user2Id = m.user2Id)) ||
     (decide (s.user1Id = m.user2Id) && decide (s.user2Id = m.user1Id))) &&
    decide (s.status = SessionStatus.active))

/-- The candidate search of `queue.join`: first user of the `by_queue` index
range (`isInQueue = true`) whose id differs from the caller's
(`waitingUsers.find(u => u._id !== user._id)`). -/
def findCandidate (db : DB) (uid : Nat) : Option User :=
  (db.users.filter (fun u => u.isInQueue)).find? (fun u2 => decide (u2.id ≠ uid))

/-- The user document auto-created by `queue.join` when the authenticated
caller has no directory record yet. -/
def newUserFrom (ident : Identity) (uid now : Nat) : User :=
  { id := uid
    clerkId := ident.subject
    email := jsStr ident.email ""
    name := jsStr ident.name (jsStr ident.givenName (jsStr ident.nickname "User"))
    image := ident.pictureUrl
    emailVerified := ident.emailVerified.getD false
    isInQueue := false
    createdAt := now
    updatedAt := now }

/-- Result shape of `queue.join`. -/
structure JoinResult where
  matched : Bool
  chatSessionId : Option Nat
deriving DecidableEq

/-- Result shape of `queue.leave`. -/
structure LeaveResult where
  success : Bool
deriving DecidableEq

/-- Result shape of `session.makeDecision`. -/
structure DecisionResult where
  success : Bool
  status : SessionStatus
  phase : Phase
  matchCreated : Bool
  bothDecided : Bool
deriving DecidableEq

/-- Result shape of `session.skipToReveal`. -/
structure SkipResult where
  success : Bool
  bothSkipped : Bool
  matchCreated : Bool
  skipCount : Nat
deriving DecidableEq

/-- Result shape of `requests.send`. -/
structure SendResult where
  requestId : Nat
deriving DecidableEq

/-- Result shape of `requests.accept`. -/
structure AcceptResult where
  chatSessionId : Nat
deriving DecidableEq

/-- `queue.join` (convex/queue.ts `join` mutation): auto-creates the caller
user when absent, rejects a caller with an active session, then either
claims the first waiting candidate (claim-first, verify-second) or enqueues
the caller. -/
def join (ident : Identity) (now : Nat) (db : DB) : Except String (JoinResult × DB) :=
  match uniqueUser db ident.subject with
  | .error e => .error e
  | .ok ou =>
    let userdb : User × DB :=
      match ou with
      | some u => (u, db)
      | none =>
        let u := newUserFrom ident db.nextId now
        (u, { db with users := db.users ++ [u], nextId := db.nextId + 1 })
    let user := userdb.1
    let db1 := userdb.2
    match findActiveSession db1 user.id with
    | some _ => .error "You are already in an active chat session. Please leave your current chat before finding a new match."
    | none =>
      match findCandidate db1 user.id with
      | some matchedUser =>
        let db2 := patchUserQueue db1 matchedUser.id false
        match findActiveSession db2 matchedUser.id with
        | some _ =>
          let db3 := patchUserQueue db2 user.id true
          .ok ({ matched := false, chatSessionId := none }, db3)
        | none =>
          let db3 := patchUserQueue db2 user.id false
          let sid := db3.nextId
          let s : ChatSession :=
            { id := sid, user1Id := user.id, user2Id := matchedUser.id
              phase := .speed_dating, status := .active, startedAt := now
              speedDatingEndsAt := some (now + 15 * 60 * 1000), endedAt := none
              user1WantsContinue := none, user2WantsContinue := none
              user1WantsSkip := none, user2WantsSkip := none }
          let db4 := { db3 with chatSessions := db3.chatSessions ++ [s], nextId := db3.nextId + 1 }
          .ok ({ matched := true, chatSessionId := some sid }, db4)
      | none =>
        let db2 := patchUserQueue db1 user.id true
        .ok ({ matched := false, chatSessionId := none }, db2)

/-- `queue.leave`: clears the caller's queue flag; throws when the caller has
no user record. -/
def leave (ident : Identity) (db : DB) : Except String (LeaveResult × DB) :=
  match uniqueUser db ident.subject with
  | .error e => .error e
  | .ok none => .error "User not found"
  | .ok (some user) =>
    .ok ({ success := true }, patchUserQueue db user.id false)

/-- `session.makeDecision` (convex/decisions.ts): records the caller's
continue-decision, sets status to waiting_reveal, then resolves when both
slots are set. -/
def makeDecision (ident : Identity) (sid : Nat) (wantsToContinue : Bool) (now : Nat) (db : DB) :
    Except String (DecisionResult × DB) :=
  match uniqueUser db ident.subject with
  | .error e => .error e
  | .ok none => .error "User not found"
  | .ok (some user) =>
    match getSession db sid with
    | none => .error "Chat session not found"
    | some chatSession =>
      if chatSession.user1Id ≠ user.id ∧ chatSession.user2Id ≠ user.id then
        .error "Unauthorized"
      else
        let db1 := patchSession db sid (fun s =>
          if chatSession.user1Id = user.id then { s with status := .waiting_reveal, user1WantsContinue := some wantsToContinue }
          else { s with status := .waiting_reveal, user2WantsContinue := some wantsToContinue })
        match getSession db1 sid with
        | none => .error "Session not found"
        | some updatedSession =>
          let user1Decision : Option Bool :=
            if chatSession.user1Id = user.id then some wantsToContinue else updatedSession.user1WantsContinue
          let user2Decision : Option Bool :=
            if chatSession.user1Id = user.id then updatedSession.user2WantsContinue else some wantsToContinue
          match user1Decision, user2Decision with
          | some d1, some d2 =>
            if d1 && d2 then
              let m : Match :=
                { id := db1.nextId, user1Id := chatSession.user1Id, user2Id := chatSession.user2Id
                  chatSessionId := sid, matchedAt := now }
              let db2 := { db1 with matchRecords := db1.matchRecords ++ [m], nextId := db1.nextId + 1 }
              let db3 := patchSession db2 sid (fun s => { s with status := .active, phase := .extended })
              .ok ({ success := true, status := .active, phase := .extended
                     matchCreated := true, bothDecided := true }, db3)
            else
              let db2 := patchSession db1 sid (fun s => { s with status := .ended, endedAt := some now })
              let db3 := patchUserQueue db2 chatSession.user1Id false
              let db4 := patchUserQueue db3 chatSession.user2Id false
              let db5 := { db4 with messages := db4.messages.filter (fun msg => decide (msg.chatSessionId ≠ sid)) }
              .ok ({ success := true, status := .ended, phase := .speed_dating
                     matchCreated := false, bothDecided := true }, db5)
          | _, _ =>
            .ok ({ success := true, status := .waiting_reveal, phase := .speed_dating
                   matchCreated := false, bothDecided := false }, db1)

/-- `session.skipToReveal` (convex/decisions.ts): records the caller's skip
vote during speed dating; when both participants have voted, creates the
Match and moves the session to the extended phase. -/
def skipToReveal (ident : Identity) (sid : Nat) (now : Nat) (db : DB) :
    Except String (SkipResult × DB) :=
  match uniqueUser db ident.subject with
  | .error e => .error e
  | .ok none => .error "User not found"
  | .ok (some user) =>
    match getSession db sid with
    | none => .error "Chat session not found"
    | some chatSession =>
      if chatSession.user1Id ≠ user.id ∧ chatSession.user2Id ≠ user.id then
        .error "Unauthorized"
      else if chatSession.phase ≠ Phase.speed_dating then
        .error "Can only skip during speed dating phase"
      else
        let db1 := patchSession db sid (fun s =>
          if chatSession.user1Id = user.id then { s with user1WantsSkip := some true }
          else { s with user2WantsSkip := some true })
        match getSession db1 sid with
        | none => .error "Session not found"
        | some updatedSession =>
          let user1Skip := if chatSession.user1Id = user.id then true else jsTruthy updatedSession.user1WantsSkip
          let user2Skip := if chatSession.user1Id = user.id then jsTruthy updatedSession.user2WantsSkip else true
          let dbOut :=
            if user1Skip && user2Skip then
              let m : Match :=
                { id := db1.nextId, user1Id := chatSession.user1Id, user2Id := chatSession.user2Id
                  chatSessionId := sid, matchedAt := now }
              let db2 := { db1 with matchRecords := db1.matchRecords ++ [m], nextId := db1.nextId + 1 }
              patchSession db2 sid (fun s => { s with status := .active, phase := .extended })
            else db1
          .ok ({ success := true, bothSkipped := user1Skip && user2Skip
                 matchCreated := user1Skip && user2Skip
                 skipCount := (if user1Skip then 1 else 0) + (if user2Skip then 1 else 0) }, dbOut)

/-- `requests.send` (convex/chatRequests.ts `send` mutation). -/
def send (ident : Identity) (matchId : Nat) (now : Nat) (db : DB) :
    Except String (SendResult × DB) :=
  match uniqueUser db ident.subject with
  | .error e => .error e
  | .ok none => .error "User not found"
  | .ok (some user) =>
    match getMatch db matchId with
    | none => .error "Match not found"
    | some m =>
      if m.user1Id ≠ user.id ∧ m.user2Id ≠ user.id then
        .error "Unauthorized"
      else
        let toUserId := if m.user1Id = user.id then m.user2Id else m.user1Id
        match pendingFor db matchId with
        | some _ => .error "A request is already pending for this match"
        | none =>
          match activeBetween db m with
          | some _ => .error "You already have an active chat with this person"
          | none =>
            let rid := db.nextId
            let req : ChatRequest :=
              { id := rid, fromUserId := user.id, toUserId := toUserId, matchId := matchId
                status := .pending, createdAt := now, respondedAt := none }
            let db1 := { db with chatRequests := db.chatRequests ++ [req], nextId := db.nextId + 1 }
            .ok ({ requestId := rid }, db1)

/-- `requests.accept` (convex/chatRequests.ts `accept` mutation). -/
def accept (ident : Identity) (requestId : Nat) (now : Nat) (db : DB) :
    Except String (AcceptResult × DB) :=
  match uniqueUser db ident.subject with
  | .error e => .error e
  | .ok none => .error "User not found"
  | .ok (some user) =>
    match getRequest db requestId with
    | none => .error "Request not found"
    | some request =>
      if request.toUserId ≠ user.id then
        .error "Unauthorized"
      else if request.status ≠ RequestStatus.pending then
        .error "Request is no longer pending"
      else
        match getMatch db request.matchId with
        | none => .error "Match not found"
        | some _ =>
          let sid := db.nextId
          let s : ChatSession :=
            { id := sid, user1Id := request.fromUserId, user2Id := request.toUserId
              phase := .extended, status := .active, startedAt := now
              speedDatingEndsAt := none, endedAt := none
              user1WantsContinue := none, user2WantsContinue := none
              user1WantsSkip := none, user2WantsSkip := none }
          let db1 := { db with chatSessions := db.chatSessions ++ [s], nextId := db.nextId + 1 }
          let db2 := patchMatchSession db1 request.matchId sid
          let db3 := patchRequestStatus db2 requestId .accepted now
          .ok ({ chatSessionId := sid }, db3)

/-- One call of a core operation, with its caller identity, arguments and
wall-clock time. -/
inductive Op
  | join (ident : Identity) (now : Nat)
  | accept (ident : Identity) (requestId : Nat) (now : Nat)
  | makeDecision (ident : Identity) (sid : Nat) (wantsToContinue : Bool) (now : Nat)
  | skipToReveal (ident : Identity) (sid : Nat) (now : Nat)

/-- Apply one operation as a transaction: a thrown error rolls the state
back, a committed call replaces it. -/
def applyOp (db : DB) (o : Op) : DB :=
  match o with
  | .join i n =>
    match join i n db with
    | .ok (_, db') => db'
    | .error _ => db
  | .accept i r n =>
    match accept i r n db with
    | .ok (_, db') => db'
    | .error _ => db
  | .makeDecision i s w n =>
    match makeDecision i s w n db with
    | .ok (_, db') => db'
    | .error _ => db
  | .skipToReveal i s n =>
    match skipToReveal i s n db with
    | .ok (_, db') => db'
    | .error _ => db

/-- Run a sequence of core operations from the empty database. -/
def runOps (ops : List Op) : DB :=
  ops.foldl applyOp dbEmpty

/-- Sessions with status=active in which the user participates. -/
def activeSessionsOf (db : DB) (uid : Nat) : List ChatSession :=
  db.chatSessions.filter (activeFor uid)

/-- Predicate: session `s` is an active session between users `u` and `v`
(either participant order). -/
def pairActive (u v : Nat) (s : ChatSession) : Bool :=
  ((decide (s.user1Id = u) && decide (s.user2Id = v)) ||
   (decide (s.user1Id = v) && decide (s.user2Id = u))) &&
  decide (s.status = SessionStatus.active)

/-- Invariant: each user participates in at most one active session. -/
def invUser (db : DB) : Prop :=
  ∀ uid, (activeSessionsOf db uid).length ≤ 1

/-- Invariant: each unordered pair of users has at most one active session. -/
def invPair (db : DB) : Prop :=
  ∀ u v, (db.chatSessions.filter (pairActive u v)).length ≤ 1

/-- Matches linked to a given session. -/
def matchesFor (db : DB) (sid : Nat) : List Match :=
  db.matchRecords.filter (fun m => decide (m.chatSessionId = sid))

/-- Messages belonging to a given session (the `by_chat_session` index). -/
def messagesFor (db : DB) (sid : Nat) : List Message :=
  db.messages.filter (fun m => decide (m.chatSessionId = sid))

/-- Well-formed ids: every user referenced by a session is an already
allocated id, so a freshly inserted user cannot collide. -/
def wfRefs (db : DB) : Prop :=
  ∀ s ∈ db.chatSessions, s.user1Id < db.nextId ∧ s.user2Id < db.nextId

/-- Auxiliary: `find?` commutes with a pointwise map that preserves the
predicate. -/
theorem find_map_pres {α : Type} (p : α → Bool) (g : α → α) (l : List α)
    (h : ∀ x, p (g x) = p x) :
    (l.map g).find? p = (l.find? p).map g := by
  induction l with
  | nil => rfl
  | cons a t ih => cases hpa : p a <;> simp [List.find?_cons, h a, hpa, ih]

/-- Auxiliary: `filter` commutes with a pointwise map that preserves the
predicate. -/
theorem filter_map_pres {α : Type} (p : α → Bool) (g : α → α) (l : List α)
    (h : ∀ x, p (g x) = p x) :
    (l.map g).filter p = (l.filter p).map g := by
  induction l with
  | nil => rfl
  | cons a t ih => cases hpa : p a <;> simp [List.filter_cons, h a, hpa, ih]

/-- Auxiliary: a `find?` that misses the first list continues in the second. -/
theorem find_append_none {α : Type} (p : α → Bool) (l1 l2 : List α)
    (h : l1.find? p = none) : (l1 ++ l2).find? p = l2.find? p := by
  induction l1 with
  | nil => rfl
  | cons a t ih =>
    cases hpa : p a with
    | true => rw [List.find?_cons_of_pos _ hpa] at h; cases h
    | false =>
      rw [List.find?_cons_of_neg _ (by simp [hpa])] at h
      rw [List.cons_append, List.find?_cons_of_neg _ (by simp [hpa])]
      exact ih h

/-- Inversion of a successful `.unique()` lookup: the index range holds
exactly the returned document. -/
theorem uniqueUser_eq_list (db : DB) (cid : String) (u : User)
    (h : uniqueUser db cid = .ok (some u)) : usersWithClerk db cid = [u] := by
  unfold uniqueUser at h
  revert h
  cases hl : usersWithClerk db cid with
  | nil => intro h; simp at h
  | cons a t =>
    cases t with
    | nil => intro h; simp at h; rw [h]
    | cons b t2 => intro h; simp at h

/-- Patching a session is invisible to `getSession` of the same id except
through the patch function, provided the patch preserves the id. -/
theorem getSession_patch (db : DB) (sid : Nat) (f : ChatSession → ChatSession)
    (hf : ∀ t, (f t).id = t.id) (s : ChatSession) (hs : getSession db sid = some s) :
    getSession (patchSession db sid f) sid = some (f s) := by
  have hid : s.id = sid := by simpa using List.find?_some hs
  unfold getSession patchSession
  rw [find_map_pres _ _ _ (by intro x; by_cases hx : x.id = sid <;> simp [hx, hf x])]
  unfold getSession at hs
  rw [hs]
  simp [hid]

/-- Caller identity used in concrete witnesses. -/
def identA : Identity := ⟨"a", none, none, none, none, none, none⟩

/-- Second caller identity used in concrete witnesses. -/
def identB : Identity := ⟨"b", none, none, none, none, none, none⟩

/-- Third caller identity used in concrete witnesses. -/
def identC : Identity := ⟨"c", none, none, none, none, none, none⟩

/-- Concrete user record for witnesses. -/
def userA : User :=
  { id := 0, clerkId := "a", email := "", name := "User", image := none
    emailVerified := false, isInQueue := false, createdAt := 0, updatedAt := 0 }

/-- Concrete user record for witnesses. -/
def userB : User :=
  { id := 1, clerkId := "b", email := "", name := "User", image := none
    emailVerified := false, isInQueue := false, createdAt := 0, updatedAt := 0 }

/-- Concrete active speed-dating session between `userA` and `userB`. -/
def sessAB : ChatSession :=
  { id := 2, user1Id := 0, user2Id := 1, phase := .speed_dating, status := .active
    startedAt := 0, speedDatingEndsAt := some 900000, endedAt := none
    user1WantsContinue := none, user2WantsContinue := none
    user1WantsSkip := none, user2WantsSkip := none }

/-- Concrete database with two users in one active speed-dating session. -/
def dbPair : DB :=
  { users := [userA, userB], chatSessions := [sessAB], matchRecords := []
    chatRequests := [], messages := [], nextId := 3 }

/-- Profile fields of a user document as `queue.join` derives them from the
caller's identity. -/
def profileFromIdentity (ident : Identity) (u : User) : Prop :=
  u.clerkId = ident.subject ∧ u.email = jsStr ident.email "" ∧
  u.name = jsStr ident.name (jsStr ident.givenName (jsStr ident.nickname "User")) ∧
  u.image = ident.pictureUrl

/-- A queue-flag patch does not disturb the identity-derived profile fields. -/
theorem profileFromIdentity_patch (ident : Identity) (uid : Nat) (b : Bool) (l : List User)
    (h : ∃ u ∈ l, profileFromIdentity ident u) :
    ∃ u ∈ l.map (fun x => if x.id = uid then { x with isInQueue := b } else x),
      profileFromIdentity ident u := by
  obtain ⟨u, hu, hk⟩ := h
  refine ⟨if u.id = uid then { u with isInQueue := b } else u, List.mem_map_of_mem _ hu, ?_⟩
  by_cases hx : u.id = uid <;> simp only [profileFromIdentity] at hk ⊢ <;> simp [hx, hk]

/-- C8 (counterexample): the claim says `queue.leave` always succeeds for an
authenticated caller, but a caller whose user record has not been created yet
is thrown a "User not found" error. -/
theorem C8_leave_no_record_fails :
    leave identA dbEmpty = .error "User not found" := rfl

/-- C8 (amended): for an authenticated caller whose user record exists,
`queue.leave` succeeds with `{success:true}`, leaves the caller's queue flag
false, and a second `leave` returns the same result on the identical state. -/
theorem C8_leave_idempotent (ident : Identity) (db : DB) (user : User)
    (h : uniqueUser db ident.subject = .ok (some user)) :
    ∃ db1, leave ident db = .ok ({ success := true }, db1) ∧
      (∀ u ∈ db1.users, u.clerkId = ident.subject → u.isInQueue = false) ∧
      leave ident db1 = .ok ({ success := true }, db1) := by
  have hl := uniqueUser_eq_list db ident.subject user h
  refine ⟨patchUserQueue db user.id false, ?_, ?_, ?_⟩
  · unfold leave
    rw [h]
  · intro u hu hcl
    unfold patchUserQueue at hu
    simp only [List.mem_map] at hu
    obtain ⟨x, hx, he⟩ := hu
    by_cases hid : x.id = user.id
    · rw [← he]; simp [hid]
    · rw [← he] at hcl ⊢
      simp only [hid, if_neg, if_false] at hcl ⊢
      have hxin : x ∈ usersWithClerk db ident.subject := by
        unfold usersWithClerk
        simp [List.mem_filter, hx, hcl]
      rw [hl] at hxin
      simp at hxin
      exact absurd (by rw [hxin]) hid
  · have husers : usersWithClerk (patchUserQueue db user.id false) ident.subject =
        [{ user with isInQueue := false }] := by
      unfold usersWithClerk patchUserQueue
      rw [filter_map_pres _ _ _ (by intro x; by_cases hx : x.id = user.id <;> simp [hx])]
      have : db.users.filter (fun u => decide (u.clerkId = ident.subject)) = [user] := hl
      rw [this]
      simp
    have hu2 : uniqueUser (patchUserQueue db user.id false) ident.subject =
        .ok (some { user with isInQueue := false }) := by
      unfold uniqueUser
      rw [husers]
    have hmaps : (db.users.map (fun u => if u.id = user.id then { u with isInQueue := false } else u)).map
          (fun u => if u.id = user.id then { u with isInQueue := false } else u) =
        db.users.map (fun u => if u.id = user.id then { u with isInQueue := false } else u) := by
      rw [List.map_map]
      apply List.map_congr_left
      intro x _
      by_cases hx : x.id = user.id <;> simp [Function.comp_apply, hx]
    have hidem : patchUserQueue (patchUserQueue db user.id false) user.id false =
        patchUserQueue db user.id false :=
      congrArg (fun l => ({ db with users := l } : DB)) hmaps
    unfold leave
    rw [hu2]
    exact congrArg (fun x => (Except.ok ({ success := true }, x) : Except String (LeaveResult × DB))) hidem

/-- C8 (witness for the amended theorem). -/
theorem C8_leave_idempotent_witness :
    ∃ db1, leave identA dbPair = .ok ({ success := true }, db1) ∧
      (∀ u ∈ db1.users, u.clerkId = identA.subject → u.isInQueue = false) ∧
      leave identA db1 = .ok ({ success := true }, db1) :=
  C8_leave_idempotent identA dbPair userA (by rfl)

/-- C10: an authenticated caller with no user directory record does not make
`queue.join` fail: the call succeeds and afterwards the database holds a user
record for the caller whose email, name and image are derived from the
caller's identity. -/
theorem C10_join_autocreates (ident : Identity) (now : Nat) (db : DB)
    (hnone : usersWithClerk db ident.subject = [])
    (hwf : wfRefs db) :
    ∃ r db', join ident now db = .ok (r, db') ∧
      ∃ u ∈ db'.users, profileFromIdentity ident u := by
  have hu0 : uniqueUser db ident.subject = .ok none := by
    unfold uniqueUser
    rw [hnone]
  have hnu : profileFromIdentity ident (newUserFrom ident db.nextId now) := by
    simp [profileFromIdentity, newUserFrom]
  have hbase : ∃ u ∈ db.users ++ [newUserFrom ident db.nextId now],
      profileFromIdentity ident u :=
    ⟨newUserFrom ident db.nextId now, by simp, hnu⟩
  have hnoact : findActiveSession
      { db with users := db.users ++ [newUserFrom ident db.nextId now], nextId := db.nextId + 1 }
      (newUserFrom ident db.nextId now).id = none := by
    unfold findActiveSession
    apply List.find?_eq_none.mpr
    intro s hs
    have := hwf s hs
    simp only [newUserFrom, activeFor]
    simp only [Bool.not_eq_true, Bool.and_eq_false_iff, Bool.or_eq_false_iff]
    left
    constructor <;> simp <;> omega
  unfold join
  rw [hu0]
  dsimp only
  rw [hnoact]
  dsimp only
  split
  · split
    · refine ⟨_, _, rfl, ?_⟩
      exact profileFromIdentity_patch ident _ true _
        (profileFromIdentity_patch ident _ false _ hbase)
    · refine ⟨_, _, rfl, ?_⟩
      exact profileFromIdentity_patch ident _ false _
        (profileFromIdentity_patch ident _ false _ hbase)
  · exact ⟨_, _, rfl, profileFromIdentity_patch ident _ true _ hbase⟩

/-- C10 (witness). -/
theorem C10_join_autocreates_witness :
    ∃ r db', join identC 5 dbPair = .ok (r, db') ∧
      ∃ u ∈ db'.users, profileFromIdentity identC u :=
  C10_join_autocreates identC 5 dbPair (by rfl) (by unfold wfRefs; decide)

/-- Queue flags after two successive single-user queue-flag patches on
distinct ids. -/
theorem flags_after_two_patches (db : DB) (i j : Nat) (bi bj : Bool) (hij : i ≠ j) :
    ∀ u ∈ (patchUserQueue (patchUserQueue db i bi) j bj).users,
      (u.id = i → u.isInQueue = bi) ∧ (u.id = j → u.isInQueue = bj) := by
  intro u hmem
  simp only [patchUserQueue, List.map_map, List.mem_map, Function.comp_apply] at hmem
  obtain ⟨x, hx, hxu⟩ := hmem
  by_cases h1 : x.id = i
  · have h2 : ¬ x.id = j := fun hh => hij (h1.symm.trans hh)
    have he : u = { x with isInQueue := bi } := by
      rw [← hxu, if_pos h1, if_neg (show ({ x with isInQueue := bi } : User).id = j → False from h2)]
    constructor
    · intro _; simp [he]
    · intro hid; rw [he] at hid; exact absurd hid h2
  · by_cases h2 : x.id = j
    · have he : u = { x with isInQueue := bj } := by
        rw [← hxu, if_neg h1, if_pos h2]
      constructor
      · intro hid; rw [he] at hid; exact absurd hid h1
      · intro _; simp [he]
    · have he : u = x := by
        rw [← hxu, if_neg h1, if_neg h2]
      constructor
      · intro hid; rw [he] at hid; exact absurd hid h1
      · intro hid; rw [he] at hid; exact absurd hid h2

/-- C2: when `queue.join` by an authenticated caller with no active session
finds a waiting candidate, it claims the candidate (queue flag cleared) and
then checks the candidate's sessions: if the candidate holds an active
session the candidate stays unclaimed, the caller is re-queued and
`{matched:false}` is returned; otherwise a speed-dating ChatSession is
created (status active, startedAt now, deadline now+15min), both queue flags
end up false and `{matched:true, sessionId}` is returned. -/
theorem C2_join_claim_first (ident : Identity) (now : Nat) (db : DB) (user : User) (c : User)
    (hu : uniqueUser db ident.subject = .ok (some user))
    (hNA : findActiveSession db user.id = none)
    (hc : findCandidate db user.id = some c) :
    ((∃ sAct, findActiveSession db c.id = some sAct) →
      ∃ db', join ident now db = .ok ({ matched := false, chatSessionId := none }, db') ∧
        db'.chatSessions = db.chatSessions ∧
        (∀ u ∈ db'.users, (u.id = c.id → u.isInQueue = false) ∧ (u.id = user.id → u.isInQueue = true))) ∧
    (findActiveSession db c.id = none →
      ∃ db', join ident now db = .ok ({ matched := true, chatSessionId := some db.nextId }, db') ∧
        db'.chatSessions = db.chatSessions ++
          [{ id := db.nextId, user1Id := user.id, user2Id := c.id
             phase := .speed_dating, status := .active, startedAt := now
             speedDatingEndsAt := some (now + 15 * 60 * 1000), endedAt := none
             user1WantsContinue := none, user2WantsContinue := none
             user1WantsSkip := none, user2WantsSkip := none }] ∧
        (∀ u ∈ db'.users, (u.id = c.id ∨ u.id = user.id) → u.isInQueue = false)) := by
  have hcc : c.id ≠ user.id := by simpa using List.find?_some hc
  constructor
  · rintro ⟨sAct, hCA⟩
    unfold join
    rw [hu]
    dsimp only
    rw [hNA]
    dsimp only
    rw [hc]
    dsimp only
    rw [show findActiveSession (patchUserQueue db c.id false) c.id =
          findActiveSession db c.id from rfl, hCA]
    dsimp only
    exact ⟨_, rfl, rfl, flags_after_two_patches db c.id user.id false true hcc⟩
  · intro hCA
    unfold join
    rw [hu]
    dsimp only
    rw [hNA]
    dsimp only
    rw [hc]
    dsimp only
    rw [show findActiveSession (patchUserQueue db c.id false) c.id =
          findActiveSession db c.id from rfl, hCA]
    dsimp only
    refine ⟨_, rfl, rfl, ?_⟩
    intro u hmem hid
    have h := flags_after_two_patches db c.id user.id false false hcc u hmem
    rcases hid with hid | hid
    · exact h.1 hid
    · exact h.2 hid

/-- Concrete user record with the queue flag set, used as a waiting
candidate in witnesses. -/
def userQ : User :=
  { id := 7, clerkId := "q", email := "", name := "User", image := none
    emailVerified := false, isInQueue := true, createdAt := 0, updatedAt := 0 }

/-- Concrete database where `userA` is present and `userQ` is waiting in the
queue, with no sessions at all. -/
def dbQueue : DB :=
  { users := [userA, userQ], chatSessions := [], matchRecords := []
    chatRequests := [], messages := [], nextId := 8 }

/-- C2 (witness). -/
theorem C2_join_claim_first_witness :
    ((∃ sAct, findActiveSession dbQueue userQ.id = some sAct) →
      ∃ db', join identA 0 dbQueue = .ok ({ matched := false, chatSessionId := none }, db') ∧
        db'.chatSessions = dbQueue.chatSessions ∧
        (∀ u ∈ db'.users, (u.id = userQ.id → u.isInQueue = false) ∧ (u.id = userA.id → u.isInQueue = true))) ∧
    (findActiveSession dbQueue userQ.id = none →
      ∃ db', join identA 0 dbQueue = .ok ({ matched := true, chatSessionId := some dbQueue.nextId }, db') ∧
        db'.chatSessions = dbQueue.chatSessions ++
          [{ id := dbQueue.nextId, user1Id := userA.id, user2Id := userQ.id
             phase := .speed_dating, status := .active, startedAt := 0
             speedDatingEndsAt := some (0 + 15 * 60 * 1000), endedAt := none
             user1WantsContinue := none, user2WantsContinue := none
             user1WantsSkip := none, user2WantsSkip := none }] ∧
        (∀ u ∈ db'.users, (u.id = userQ.id ∨ u.id = userA.id) → u.isInQueue = false)) :=
  C2_join_claim_first identA 0 dbQueue userA userQ (by rfl) (by rfl) (by rfl)

/-- Patching a match's session link is visible to `getMatch` of the same id
as exactly that field update. -/
theorem getMatch_patchMatchSession (db : DB) (mid sid : Nat) (m : Match)
    (hm : getMatch db mid = some m) :
    getMatch (patchMatchSession db mid sid) mid = some { m with chatSessionId := sid } := by
  have hid : m.id = mid := by simpa using List.find?_some hm
  unfold getMatch patchMatchSession
  rw [find_map_pres _ _ _ (by intro x; by_cases hx : x.id = mid <;> simp [hx])]
  unfold getMatch at hm
  rw [hm]
  simp [hid]

/-- Patching a request's status is visible to `getRequest` of the same id as
exactly that field update. -/
theorem getRequest_patchRequestStatus (db : DB) (rid : Nat) (st : RequestStatus) (now : Nat)
    (r : ChatRequest) (hr : getRequest db rid = some r) :
    getRequest (patchRequestStatus db rid st now) rid =
      some { r with status := st, respondedAt := some now } := by
  have hid : r.id = rid := by simpa using List.find?_some hr
  unfold getRequest patchRequestStatus
  rw [find_map_pres _ _ _ (by intro x; by_cases hx : x.id = rid <;> simp [hx])]
  unfold getRequest at hr
  rw [hr]
  simp [hid]

/-- C5: `requests.accept` fails with Unauthorized unless the caller is the
addressee, fails when the request is not pending, and otherwise creates a new
extended active session with no timer, re-points the parent Match at it,
marks the request accepted, and returns the new session id. -/
theorem C5_accept (ident : Identity) (now : Nat) (db : DB) (user : User) (rid : Nat)
    (req : ChatRequest)
    (hu : uniqueUser db ident.subject = .ok (some user))
    (hr : getRequest db rid = some req) :
    (req.toUserId ≠ user.id → accept ident rid now db = .error "Unauthorized") ∧
    (req.toUserId = user.id → req.status ≠ .pending →
      accept ident rid now db = .error "Request is no longer pending") ∧
    (∀ m, req.toUserId = user.id → req.status = .pending → getMatch db req.matchId = some m →
      ∃ db', accept ident rid now db = .ok ({ chatSessionId := db.nextId }, db') ∧
        db'.chatSessions = db.chatSessions ++
          [{ id := db.nextId, user1Id := req.fromUserId, user2Id := req.toUserId
             phase := .extended, status := .active, startedAt := now
             speedDatingEndsAt := none, endedAt := none
             user1WantsContinue := none, user2WantsContinue := none
             user1WantsSkip := none, user2WantsSkip := none }] ∧
        getMatch db' req.matchId = some { m with chatSessionId := db.nextId } ∧
        getRequest db' rid = some { req with status := .accepted, respondedAt := some now }) := by
  refine ⟨?_, ?_, ?_⟩
  · intro hne
    unfold accept
    rw [hu]
    dsimp only
    rw [hr]
    dsimp only
    rw [if_pos hne]
  · intro heq hnp
    unfold accept
    rw [hu]
    dsimp only
    rw [hr]
    dsimp only
    rw [if_neg (by simp [heq]), if_pos hnp]
  · intro m heq hp hm
    unfold accept
    rw [hu]
    dsimp only
    rw [hr]
    dsimp only
    rw [if_neg (by simp [heq]), if_neg (by simp [hp])]
    rw [hm]
    dsimp only
    refine ⟨_, rfl, rfl, ?_, ?_⟩
    · exact getMatch_patchMatchSession
        ({ db with
            chatSessions := db.chatSessions ++
              [⟨db.nextId, req.fromUserId, req.toUserId, .extended, .active, now,
                none, none, none, none, none, none⟩]
            nextId := db.nextId + 1 })
        req.matchId db.nextId m hm
    · exact getRequest_patchRequestStatus
        (patchMatchSession
          ({ db with
              chatSessions := db.chatSessions ++
                [⟨db.nextId, req.fromUserId, req.toUserId, .extended, .active, now,
                  none, none, none, none, none, none⟩]
              nextId := db.nextId + 1 })
          req.matchId db.nextId)
        rid .accepted now req hr

/-- Concrete match between `userA` and `userB` used in witnesses. -/
def matchAB : Match :=
  { id := 3, user1Id := 0, user2Id := 1, chatSessionId := 2, matchedAt := 0 }

/-- Concrete pending chat request from `userB` to `userA` used in
witnesses. -/
def reqBA : ChatRequest :=
  { id := 4, fromUserId := 1, toUserId := 0, matchId := 3, status := .pending
    createdAt := 0, respondedAt := none }

/-- Concrete database with a match and a pending request, no sessions. -/
def dbReq : DB :=
  { users := [userA, userB], chatSessions := [], matchRecords := [matchAB]
    chatRequests := [reqBA], messages := [], nextId := 5 }

/-- C5 (witness). -/
theorem C5_accept_witness :
    (reqBA.toUserId ≠ userA.id → accept identA 4 9 dbReq = .error "Unauthorized") ∧
    (reqBA.toUserId = userA.id → reqBA.status ≠ .pending →
      accept identA 4 9 dbReq = .error "Request is no longer pending") ∧
    (∀ m, reqBA.toUserId = userA.id → reqBA.status = .pending → getMatch dbReq reqBA.matchId = some m →
      ∃ db', accept identA 4 9 dbReq = .ok ({ chatSessionId := dbReq.nextId }, db') ∧
        db'.chatSessions = dbReq.chatSessions ++
          [{ id := dbReq.nextId, user1Id := reqBA.fromUserId, user2Id := reqBA.toUserId
             phase := .extended, status := .active, startedAt := 9
             speedDatingEndsAt := none, endedAt := none
             user1WantsContinue := none, user2WantsContinue := none
             user1WantsSkip := none, user2WantsSkip := none }] ∧
        getMatch db' reqBA.matchId = some { m with chatSessionId := dbReq.nextId } ∧
        getRequest db' 4 = some { reqBA with status := .accepted, respondedAt := some 9 }) := by
  have h := C5_accept identA 9 dbReq userA 4 reqBA (by rfl) (by rfl)
  exact h

/-- C6: `requests.send` fails when the caller is not a participant of the
Match, when a pending request already exists for the Match, or when an active
session already exists between the pair; otherwise it appends exactly one
pending ChatRequest addressed to the other participant. -/
theorem C6_send (ident : Identity) (now : Nat) (db : DB) (user : User) (mid : Nat) (m : Match)
    (hu : uniqueUser db ident.subject = .ok (some user))
    (hm : getMatch db mid = some m) :
    (m.user1Id ≠ user.id ∧ m.user2Id ≠ user.id → send ident mid now db = .error "Unauthorized") ∧
    (m.user1Id = user.id ∨ m.user2Id = user.id →
      ((∃ r0, pendingFor db mid = some r0) →
        send ident mid now db = .error "A request is already pending for this match") ∧
      (pendingFor db mid = none →
        ((∃ s0, activeBetween db m = some s0) →
          send ident mid now db = .error "You already have an active chat with this person") ∧
        (activeBetween db m = none →
          ∃ db', send ident mid now db = .ok ({ requestId := db.nextId }, db') ∧
            db'.chatRequests = db.chatRequests ++
              [{ id := db.nextId, fromUserId := user.id
                 toUserId := if m.user1Id = user.id then m.user2Id else m.user1Id
                 matchId := mid, status := .pending, createdAt := now, respondedAt := none }]))) := by
  constructor
  · intro hne
    unfold send
    rw [hu]
    dsimp only
    rw [hm]
    dsimp only
    rw [if_pos hne]
  · intro hpart
    have hnot : ¬ (m.user1Id ≠ user.id ∧ m.user2Id ≠ user.id) := by
      rcases hpart with h | h <;> simp [h]
    constructor
    · rintro ⟨r0, hp⟩
      unfold send
      rw [hu]
      dsimp only
      rw [hm]
      dsimp only
      rw [if_neg hnot]
      rw [hp]
    · intro hp
      constructor
      · rintro ⟨s0, ha⟩
        unfold send
        rw [hu]
        dsimp only
        rw [hm]
        dsimp only
        rw [if_neg hnot]
        rw [hp]
        dsimp only
        rw [ha]
      · intro ha
        unfold send
        rw [hu]
        dsimp only
        rw [hm]
        dsimp only
        rw [if_neg hnot]
        rw [hp]
        dsimp only
        rw [ha]
        dsimp only
        exact ⟨_, rfl, rfl⟩

/-- C6 (witness). -/
theorem C6_send_witness :
    (matchAB.user1Id ≠ userB.id ∧ matchAB.user2Id ≠ userB.id →
      send identB 3 7 dbReq = .error "Unauthorized") ∧
    (matchAB.user1Id = userB.id ∨ matchAB.user2Id = userB.id →
      ((∃ r0, pendingFor dbReq 3 = some r0) →
        send identB 3 7 dbReq = .error "A request is already pending for this match") ∧
      (pendingFor dbReq 3 = none →
        ((∃ s0, activeBetween dbReq matchAB = some s0) →
          send identB 3 7 dbReq = .error "You already have an active chat with this person") ∧
        (activeBetween dbReq matchAB = none →
          ∃ db', send identB 3 7 dbReq = .ok ({ requestId := dbReq.nextId }, db') ∧
            db'.chatRequests = dbReq.chatRequests ++
              [{ id := dbReq.nextId, fromUserId := userB.id
                 toUserId := if matchAB.user1Id = userB.id then matchAB.user2Id else matchAB.user1Id
                 matchId := 3, status := .pending, createdAt := 7, respondedAt := none }]))) :=
  C6_send identB 7 dbReq userB 3 matchAB (by rfl) (by rfl)

/-- Applying the same id-preserving, idempotent session patch twice equals
applying it once. -/
theorem patchSession_idem (db : DB) (sid : Nat) (f : ChatSession → ChatSession)
    (hfid : ∀ t, (f t).id = t.id) (hff : ∀ t, f (f t) = f t) :
    patchSession (patchSession db sid f) sid f = patchSession db sid f := by
  have h : (db.chatSessions.map (fun t => if t.id = sid then f t else t)).map
      (fun t => if t.id = sid then f t else t) =
      db.chatSessions.map (fun t => if t.id = sid then f t else t) := by
    rw [List.map_map]
    apply List.map_congr_left
    intro x _
    by_cases hx : x.id = sid
    · simp [Function.comp_apply, hx, hfid, hff]
    · simp [Function.comp_apply, hx]
  exact congrArg (fun l => { db with chatSessions := l }) h

/-- `skipToReveal` on a session outside the speed-dating phase throws the
InvalidPhase error. -/
theorem skip_not_speed_dating (ident : Identity) (sid n : Nat) (db : DB) (user : User)
    (s : ChatSession)
    (hu : uniqueUser db ident.subject = .ok (some user))
    (hs : getSession db sid = some s)
    (hph : s.phase ≠ Phase.speed_dating)
    (hpart : ¬(s.user1Id ≠ user.id ∧ s.user2Id ≠ user.id)) :
    skipToReveal ident sid n db = .error "Can only skip during speed dating phase" := by
  unfold skipToReveal
  rw [hu]
  dsimp only
  rw [hs]
  dsimp only
  rw [if_neg hpart, if_pos hph]

/-- The database state after a skip vote completes the pair: the vote patch,
the Match insert, and the transition of the session to the extended phase. -/
def insertMatchState (db : DB) (sid n : Nat) (s : ChatSession) (f : ChatSession → ChatSession) : DB :=
  patchSession
    { (patchSession db sid f) with
        matchRecords := db.matchRecords ++
          [{ id := db.nextId, user1Id := s.user1Id, user2Id := s.user2Id
             chatSessionId := sid, matchedAt := n }]
        nextId := db.nextId + 1 }
    sid (fun t => { t with status := .active, phase := .extended })

/-- Evaluation of `skipToReveal` when the caller is the session's first
participant. -/
theorem skip_eval_user1 (ident : Identity) (sid n : Nat) (db : DB) (user : User) (s : ChatSession)
    (hu : uniqueUser db ident.subject = .ok (some user))
    (hs : getSession db sid = some s)
    (h1 : s.user1Id = user.id)
    (hph : s.phase = .speed_dating) :
    skipToReveal ident sid n db =
      (if jsTruthy s.user2WantsSkip then
        .ok ({ success := true, bothSkipped := true, matchCreated := true, skipCount := 2 },
          insertMatchState db sid n s
            (fun t => if s.user1Id = user.id then { t with user1WantsSkip := some true }
              else { t with user2WantsSkip := some true }))
      else
        .ok ({ success := true, bothSkipped := false, matchCreated := false, skipCount := 1 },
          patchSession db sid
            (fun t => if s.user1Id = user.id then { t with user1WantsSkip := some true }
              else { t with user2WantsSkip := some true }))) := by
  unfold skipToReveal
  rw [hu]
  dsimp only
  rw [hs]
  dsimp only
  rw [if_neg (by simp [h1]), if_neg (by simp [hph])]
  rw [getSession_patch db sid
    (fun t => if s.user1Id = user.id then { t with user1WantsSkip := some true }
      else { t with user2WantsSkip := some true })
    (by intro t; by_cases hc : s.user1Id = user.id <;> simp [hc]) s hs]
  dsimp only
  simp only [if_pos h1]
  by_cases hb : jsTruthy s.user2WantsSkip
  · simp only [hb, Bool.true_and, if_true, if_pos rfl]
    rfl
  · simp only [Bool.not_eq_true] at hb
    simp only [hb, Bool.true_and, Bool.false_eq_true, if_false]
    rfl

/-- Evaluation of `skipToReveal` when the caller is the session's second
participant (and not the first). -/
theorem skip_eval_user2 (ident : Identity) (sid n : Nat) (db : DB) (user : User) (s : ChatSession)
    (hu : uniqueUser db ident.subject = .ok (some user))
    (hs : getSession db sid = some s)
    (h1 : ¬ s.user1Id = user.id)
    (h2 : s.user2Id = user.id)
    (hph : s.phase = .speed_dating) :
    skipToReveal ident sid n db =
      (if jsTruthy s.user1WantsSkip then
        .ok ({ success := true, bothSkipped := true, matchCreated := true, skipCount := 2 },
          insertMatchState db sid n s
            (fun t => if s.user1Id = user.id then { t with user1WantsSkip := some true }
              else { t with user2WantsSkip := some true }))
      else
        .ok ({ success := true, bothSkipped := false, matchCreated := false, skipCount := 1 },
          patchSession db sid
            (fun t => if s.user1Id = user.id then { t with user1WantsSkip := some true }
              else { t with user2WantsSkip := some true }))) := by
  unfold skipToReveal
  rw [hu]
  dsimp only
  rw [hs]
  dsimp only
  rw [if_neg (by simp [h2]), if_neg (by simp [hph])]
  rw [getSession_patch db sid
    (fun t => if s.user1Id = user.id then { t with user1WantsSkip := some true }
      else { t with user2WantsSkip := some true })
    (by intro t; by_cases hc : s.user1Id = user.id <;> simp [hc]) s hs]
  dsimp only
  simp only [if_neg h1]
  by_cases hb : jsTruthy s.user1WantsSkip
  · simp only [hb, Bool.and_true, if_true, if_pos rfl]
    rfl
  · simp only [Bool.not_eq_true] at hb
    simp only [hb, Bool.and_true, Bool.false_eq_true, if_false]
    rfl

/-- C7: for a speed-dating session and a participant caller, the first
`skipToReveal` succeeds with a skip count of at most 2, and a second call by
the same user either throws (leaving the state untouched, since a failed
transaction commits nothing) or returns the identical database, again with a
skip count of at most 2 — the user's vote counts only once. -/
theorem C7_skip_idempotent (ident : Identity) (n1 : Nat) (db : DB) (user : User) (sid : Nat)
    (s : ChatSession)
    (hu : uniqueUser db ident.subject = .ok (some user))
    (hs : getSession db sid = some s)
    (hph : s.phase = .speed_dating)
    (hpart : s.user1Id = user.id ∨ s.user2Id = user.id) :
    ∃ r1 db1, skipToReveal ident sid n1 db = .ok (r1, db1) ∧ r1.skipCount ≤ 2 ∧
      ∀ n2 r2 db2, skipToReveal ident sid n2 db1 = .ok (r2, db2) → db2 = db1 ∧ r2.skipCount ≤ 2 := by
  by_cases h1 : s.user1Id = user.id
  · rw [skip_eval_user1 ident sid n1 db user s hu hs h1 hph]
    by_cases hb : jsTruthy s.user2WantsSkip
    · rw [if_pos hb]
      refine ⟨_, _, rfl, by decide, ?_⟩
      intro n2 r2 db2 h2call
      have herr : skipToReveal ident sid n2
          (insertMatchState db sid n1 s
            (fun t => if s.user1Id = user.id then { t with user1WantsSkip := some true }
              else { t with user2WantsSkip := some true })) =
          .error "Can only skip during speed dating phase" := by
        refine skip_not_speed_dating ident sid n2 _ user
          ((fun t => ({ t with status := SessionStatus.active, phase := Phase.extended } : ChatSession))
            ((fun t => if s.user1Id = user.id then { t with user1WantsSkip := some true }
              else { t with user2WantsSkip := some true }) s))
          hu ?_ (by intro hh; simp at hh) ?_
        · exact getSession_patch _ sid
            (fun t => { t with status := SessionStatus.active, phase := Phase.extended })
            (fun t => rfl) _
            (getSession_patch db sid
              (fun t => if s.user1Id = user.id then { t with user1WantsSkip := some true }
                else { t with user2WantsSkip := some true })
              (by intro t; by_cases hc : s.user1Id = user.id <;> simp [hc]) s hs)
        · intro hcon
          exact hcon.1 (by dsimp only; rw [if_pos h1]; exact h1)
      rw [herr] at h2call
      exact absurd h2call (by simp)
    · rw [if_neg hb]
      refine ⟨_, _, rfl, by decide, ?_⟩
      intro n2 r2 db2 h2call
      rw [skip_eval_user1 ident sid n2
        (patchSession db sid
          (fun t => if s.user1Id = user.id then { t with user1WantsSkip := some true }
            else { t with user2WantsSkip := some true }))
        user ({ s with user1WantsSkip := some true })
        hu
        ((getSession_patch db sid
          (fun t => if s.user1Id = user.id then { t with user1WantsSkip := some true }
            else { t with user2WantsSkip := some true })
          (by intro t; by_cases hc : s.user1Id = user.id <;> simp [hc]) s hs).trans
          (by rw [if_pos h1]))
        h1 hph] at h2call
      rw [if_neg (show ¬ jsTruthy ({ s with user1WantsSkip := some true } : ChatSession).user2WantsSkip = true from hb)] at h2call
      injection h2call with h2a
      injection h2a with hr2 hdb2
      constructor
      · rw [← hdb2]
        exact patchSession_idem db sid
          (fun t => if s.user1Id = user.id then { t with user1WantsSkip := some true }
            else { t with user2WantsSkip := some true })
          (by intro t; by_cases hc : s.user1Id = user.id <;> simp [hc])
          (by intro t; by_cases hc : s.user1Id = user.id <;> simp [hc])
      · rw [← hr2]
        decide
  · have h2 : s.user2Id = user.id := hpart.resolve_left h1
    rw [skip_eval_user2 ident sid n1 db user s hu hs h1 h2 hph]
    by_cases hb : jsTruthy s.user1WantsSkip
    · rw [if_pos hb]
      refine ⟨_, _, rfl, by decide, ?_⟩
      intro n2 r2 db2 h2call
      have herr : skipToReveal ident sid n2
          (insertMatchState db sid n1 s
            (fun t => if s.user1Id = user.id then { t with user1WantsSkip := some true }
              else { t with user2WantsSkip := some true })) =
          .error "Can only skip during speed dating phase" := by
        refine skip_not_speed_dating ident sid n2 _ user
          ((fun t => ({ t with status := SessionStatus.active, phase := Phase.extended } : ChatSession))
            ((fun t => if s.user1Id = user.id then { t with user1WantsSkip := some true }
              else { t with user2WantsSkip := some true }) s))
          hu ?_ (by intro hh; simp at hh) ?_
        · exact getSession_patch _ sid
            (fun t => { t with status := SessionStatus.active, phase := Phase.extended })
            (fun t => rfl) _
            (getSession_patch db sid
              (fun t => if s.user1Id = user.id then { t with user1WantsSkip := some true }
                else { t with user2WantsSkip := some true })
              (by intro t; by_cases hc : s.user1Id = user.id <;> simp [hc]) s hs)
        · intro hcon
          exact hcon.2 (by dsimp only; rw [if_neg h1]; exact h2)
      rw [herr] at h2call
      exact absurd h2call (by simp)
    · rw [if_neg hb]
      refine ⟨_, _, rfl, by decide, ?_⟩
      intro n2 r2 db2 h2call
      rw [skip_eval_user2 ident sid n2
        (patchSession db sid
          (fun t => if s.user1Id = user.id then { t with user1WantsSkip := some true }
            else { t with user2WantsSkip := some true }))
        user ({ s with user2WantsSkip := some true })
        hu
        ((getSession_patch db sid
          (fun t => if s.user1Id = user.id then { t with user1WantsSkip := some true }
            else { t with user2WantsSkip := some true })
          (by intro t; by_cases hc : s.user1Id = user.id <;> simp [hc]) s hs).trans
          (by rw [if_neg h1]))
        h1 h2 hph] at h2call
      rw [if_neg (show ¬ jsTruthy ({ s with user2WantsSkip := some true } : ChatSession).user1WantsSkip = true from hb)] at h2call
      injection h2call with h2a
      injection h2a with hr2 hdb2
      constructor
      · rw [← hdb2]
        exact patchSession_idem db sid
          (fun t => if s.user1Id = user.id then { t with user1WantsSkip := some true }
            else { t with user2WantsSkip := some true })
          (by intro t; by_cases hc : s.user1Id = user.id <;> simp [hc])
          (by intro t; by_cases hc : s.user1Id = user.id <;> simp [hc])
      · rw [← hr2]
        decide

/-- C7 (witness). -/
theorem C7_skip_idempotent_witness :
    ∃ r1 db1, skipToReveal identA 2 0 dbPair = .ok (r1, db1) ∧ r1.skipCount ≤ 2 ∧
      ∀ n2 r2 db2, skipToReveal identA 2 n2 db1 = .ok (r2, db2) → db2 = db1 ∧ r2.skipCount ≤ 2 :=
  C7_skip_idempotent identA 0 dbPair userA 2 sessAB (by rfl) (by rfl) (by rfl) (Or.inl (by rfl))

/-- The database state after a decision resolves with a conflict: the
decision patch, the session ended with `endedAt`, both participants' queue
flags cleared, and the session's messages hard-deleted. -/
def decisionEndState (db : DB) (sid n : Nat) (s : ChatSession) (f : ChatSession → ChatSession) : DB :=
  let db2 := patchSession (patchSession db sid f) sid (fun t => { t with status := .ended, endedAt := some n })
  let db3 := patchUserQueue db2 s.user1Id false
  let db4 := patchUserQueue db3 s.user2Id false
  { db4 with messages := db4.messages.filter (fun msg => decide (msg.chatSessionId ≠ sid)) }

/-- Inserting the pair's Match adds exactly one match linked to the
session. -/
theorem matchesFor_insertMatchState (db : DB) (sid n : Nat) (s : ChatSession)
    (f : ChatSession → ChatSession) :
    (matchesFor (insertMatchState db sid n s f) sid).length = (matchesFor db sid).length + 1 := by
  show ((db.matchRecords ++
      [({ id := db.nextId, user1Id := s.user1Id, user2Id := s.user2Id
          chatSessionId := sid, matchedAt := n } : Match)]).filter
      (fun m => decide (m.chatSessionId = sid))).length =
    ((db.matchRecords.filter (fun m => decide (m.chatSessionId = sid))).length) + 1
  simp [List.filter_append]

/-- Auxiliary: filtering by `p` after keeping only the elements refuting `p`
yields the empty list. -/
theorem filter_not_filter {α : Type} (p : α → Bool) (l : List α) :
    (l.filter (fun a => !(p a))).filter p = [] := by
  induction l with
  | nil => rfl
  | cons a t ih => by_cases hpa : p a = true <;> simp [List.filter_cons, hpa, ih]

/-- After the conflict path of `makeDecision`, no message of the session
survives. -/
theorem messagesFor_decisionEndState (db : DB) (sid n : Nat) (s : ChatSession)
    (f : ChatSession → ChatSession) :
    messagesFor (decisionEndState db sid n s f) sid = [] := by
  show ((db.messages.filter (fun msg => decide (msg.chatSessionId ≠ sid))).filter
      (fun m => decide (m.chatSessionId = sid))) = []
  have h := filter_not_filter (fun m : Message => decide (m.chatSessionId = sid)) db.messages
  simp only [ne_eq, decide_not]
  exact h

/-- Reading the session back from the conflict-end state. -/
theorem getSession_decisionEndState (db : DB) (sid n : Nat) (s : ChatSession)
    (f : ChatSession → ChatSession)
    (hfid : ∀ t, (f t).id = t.id) (hs : getSession db sid = some s) :
    getSession (decisionEndState db sid n s f) sid =
      some { (f s) with status := .ended, endedAt := some n } :=
  getSession_patch _ sid (fun t => { t with status := SessionStatus.ended, endedAt := some n })
    (fun _ => rfl) _ (getSession_patch db sid f hfid s hs)

/-- Reading the session back from the match-insert state. -/
theorem getSession_insertMatchState (db : DB) (sid n : Nat) (s : ChatSession)
    (f : ChatSession → ChatSession)
    (hfid : ∀ t, (f t).id = t.id) (hs : getSession db sid = some s) :
    getSession (insertMatchState db sid n s f) sid =
      some { (f s) with status := .active, phase := .extended } :=
  getSession_patch _ sid (fun t => { t with status := SessionStatus.active, phase := Phase.extended })
    (fun _ => rfl) _ (getSession_patch db sid f hfid s hs)

/-- Queue flags after the conflict-end state: both participants are out of
the queue. -/
theorem flags_decisionEndState (db : DB) (sid n : Nat) (s : ChatSession)
    (f : ChatSession → ChatSession) (hne : s.user1Id ≠ s.user2Id) :
    ∀ u ∈ (decisionEndState db sid n s f).users,
      (u.id = s.user1Id ∨ u.id = s.user2Id) → u.isInQueue = false := by
  intro u hmem hid
  have h := flags_after_two_patches
    (patchSession (patchSession db sid f) sid (fun t => { t with status := SessionStatus.ended, endedAt := some n }))
    s.user1Id s.user2Id false false hne u hmem
  rcases hid with hid | hid
  · exact h.1 hid
  · exact h.2 hid

/-- Evaluation of `makeDecision` when the caller is the session's first
participant. -/
theorem decision_eval_user1 (ident : Identity) (sid n : Nat) (db : DB) (user : User)
    (s : ChatSession) (w : Bool)
    (hu : uniqueUser db ident.subject = .ok (some user))
    (hs : getSession db sid = some s)
    (h1 : s.user1Id = user.id) :
    makeDecision ident sid w n db =
      (match s.user2WantsContinue with
      | none =>
        .ok ({ success := true, status := .waiting_reveal, phase := .speed_dating
               matchCreated := false, bothDecided := false },
          patchSession db sid (fun t =>
            if s.user1Id = user.id then { t with status := .waiting_reveal, user1WantsContinue := some w }
            else { t with status := .waiting_reveal, user2WantsContinue := some w }))
      | some o =>
        if w && o then
          .ok ({ success := true, status := .active, phase := .extended
                 matchCreated := true, bothDecided := true },
            insertMatchState db sid n s (fun t =>
              if s.user1Id = user.id then { t with status := .waiting_reveal, user1WantsContinue := some w }
              else { t with status := .waiting_reveal, user2WantsContinue := some w }))
        else
          .ok ({ success := true, status := .ended, phase := .speed_dating
                 matchCreated := false, bothDecided := true },
            decisionEndState db sid n s (fun t =>
              if s.user1Id = user.id then { t with status := .waiting_reveal, user1WantsContinue := some w }
              else { t with status := .waiting_reveal, user2WantsContinue := some w }))) := by
  unfold makeDecision
  rw [hu]
  dsimp only
  rw [hs]
  dsimp only
  rw [if_neg (by simp [h1])]
  rw [getSession_patch db sid
    (fun t => if s.user1Id = user.id then { t with status := .waiting_reveal, user1WantsContinue := some w }
      else { t with status := .waiting_reveal, user2WantsContinue := some w })
    (by intro t; by_cases hc : s.user1Id = user.id <;> simp [hc]) s hs]
  dsimp only
  simp only [if_pos h1]
  cases ho : s.user2WantsContinue with
  | none => rfl
  | some o =>
    dsimp only
    cases hw : (w && o) <;> rfl

/-- Evaluation of `makeDecision` when the caller is the session's second
participant (and not the first). -/
theorem decision_eval_user2 (ident : Identity) (sid n : Nat) (db : DB) (user : User)
    (s : ChatSession) (w : Bool)
    (hu : uniqueUser db ident.subject = .ok (some user))
    (hs : getSession db sid = some s)
    (h1 : ¬ s.user1Id = user.id)
    (h2 : s.user2Id = user.id) :
    makeDecision ident sid w n db =
      (match s.user1WantsContinue with
      | none =>
        .ok ({ success := true, status := .waiting_reveal, phase := .speed_dating
               matchCreated := false, bothDecided := false },
          patchSession db sid (fun t =>
            if s.user1Id = user.id then { t with status := .waiting_reveal, user1WantsContinue := some w }
            else { t with status := .waiting_reveal, user2WantsContinue := some w }))
      | some o =>
        if o && w then
          .ok ({ success := true, status := .active, phase := .extended
                 matchCreated := true, bothDecided := true },
            insertMatchState db sid n s (fun t =>
              if s.user1Id = user.id then { t with status := .waiting_reveal, user1WantsContinue := some w }
              else { t with status := .waiting_reveal, user2WantsContinue := some w }))
        else
          .ok ({ success := true, status := .ended, phase := .speed_dating
                 matchCreated := false, bothDecided := true },
            decisionEndState db sid n s (fun t =>
              if s.user1Id = user.id then { t with status := .waiting_reveal, user1WantsContinue := some w }
              else { t with status := .waiting_reveal, user2WantsContinue := some w }))) := by
  unfold makeDecision
  rw [hu]
  dsimp only
  rw [hs]
  dsimp only
  rw [if_neg (by simp [h2])]
  rw [getSession_patch db sid
    (fun t => if s.user1Id = user.id then { t with status := .waiting_reveal, user1WantsContinue := some w }
      else { t with status := .waiting_reveal, user2WantsContinue := some w })
    (by intro t; by_cases hc : s.user1Id = user.id <;> simp [hc]) s hs]
  dsimp only
  simp only [if_neg h1]
  cases ho : s.user1WantsContinue with
  | none => rfl
  | some o =>
    dsimp only
    cases hw : (o && w) <;> rfl

/-- C4: whenever `makeDecision` completes with both decision slots set and
not both true, the session ends at the current time, both participants'
queue flags are cleared, every message of the session is hard-deleted, and
the call returns `{bothDecided:true, matchCreated:false}`. -/
theorem C4_conflict_ends (ident : Identity) (n : Nat) (db : DB) (user : User) (sid : Nat)
    (s : ChatSession) (w o : Bool)
    (hu : uniqueUser db ident.subject = .ok (some user))
    (hs : getSession db sid = some s)
    (hne : s.user1Id ≠ s.user2Id)
    (hpart : s.user1Id = user.id ∨ s.user2Id = user.id)
    (hoth : (if s.user1Id = user.id then s.user2WantsContinue else s.user1WantsContinue) = some o)
    (hnb : ¬(w = true ∧ o = true)) :
    ∃ db', makeDecision ident sid w n db =
        .ok ({ success := true, status := .ended, phase := .speed_dating
               matchCreated := false, bothDecided := true }, db') ∧
      (∃ s', getSession db' sid = some s' ∧ s'.status = .ended ∧ s'.endedAt = some n) ∧
      (∀ u ∈ db'.users, (u.id = s.user1Id ∨ u.id = s.user2Id) → u.isInQueue = false) ∧
      messagesFor db' sid = [] := by
  by_cases h1 : s.user1Id = user.id
  · rw [if_pos h1] at hoth
    rw [decision_eval_user1 ident sid n db user s w hu hs h1, hoth]
    dsimp only
    rw [show (w && o) = false from by cases w <;> cases o <;> simp_all]
    refine ⟨_, rfl, ?_, ?_, ?_⟩
    · exact ⟨_, getSession_decisionEndState db sid n s _
        (by intro t; by_cases hc : s.user1Id = user.id <;> simp [hc]) hs, rfl, rfl⟩
    · exact flags_decisionEndState db sid n s _ hne
    · exact messagesFor_decisionEndState db sid n s _
  · have h2 : s.user2Id = user.id := hpart.resolve_left h1
    rw [if_neg h1] at hoth
    rw [decision_eval_user2 ident sid n db user s w hu hs h1 h2, hoth]
    dsimp only
    rw [show (o && w) = false from by cases w <;> cases o <;> simp_all]
    refine ⟨_, rfl, ?_, ?_, ?_⟩
    · exact ⟨_, getSession_decisionEndState db sid n s _
        (by intro t; by_cases hc : s.user1Id = user.id <;> simp [hc]) hs, rfl, rfl⟩
    · exact flags_decisionEndState db sid n s _ hne
    · exact messagesFor_decisionEndState db sid n s _

/-- Concrete speed-dating session where the second participant has already
declined. -/
def sessDeclined : ChatSession := { sessAB with user2WantsContinue := some false }

/-- Concrete database holding `sessDeclined`. -/
def dbDeclined : DB :=
  { users := [userA, userB], chatSessions := [sessDeclined], matchRecords := []
    chatRequests := [], messages := [{ id := 9, chatSessionId := 2, senderId := 0, content := "hi", createdAt := 0 }]
    nextId := 10 }

/-- C4 (witness). -/
theorem C4_conflict_ends_witness :
    ∃ db', makeDecision identA 2 true 5 dbDeclined =
        .ok ({ success := true, status := .ended, phase := .speed_dating
               matchCreated := false, bothDecided := true }, db') ∧
      (∃ s', getSession db' 2 = some s' ∧ s'.status = .ended ∧ s'.endedAt = some 5) ∧
      (∀ u ∈ db'.users, (u.id = sessDeclined.user1Id ∨ u.id = sessDeclined.user2Id) → u.isInQueue = false) ∧
      messagesFor db' 2 = [] :=
  C4_conflict_ends identA 5 dbDeclined userA 2 sessDeclined true false
    (by rfl) (by rfl) (by decide) (Or.inl (by rfl)) (by rfl) (by decide)

/-- C9 (implicit): `makeDecision` enforces no phase or status precondition —
for any session where the caller is a participant the call succeeds,
overwrites the caller's decision slot, and re-runs the resolution; in
particular on a session whose slots are already both true a further
`makeDecision(true)` inserts one more Match for the same session. -/
theorem C9_decision_unguarded (ident : Identity) (n : Nat) (db : DB) (user : User) (sid : Nat)
    (s : ChatSession) (w : Bool)
    (hu : uniqueUser db ident.subject = .ok (some user))
    (hs : getSession db sid = some s)
    (hpart : s.user1Id = user.id ∨ s.user2Id = user.id) :
    ∃ r db', makeDecision ident sid w n db = .ok (r, db') ∧ r.success = true ∧
      (∃ s', getSession db' sid = some s' ∧
        (if s.user1Id = user.id then s'.user1WantsContinue else s'.user2WantsContinue) = some w) ∧
      (s.user1WantsContinue = some true → s.user2WantsContinue = some true → w = true →
        (matchesFor db' sid).length = (matchesFor db sid).length + 1) := by
  by_cases h1 : s.user1Id = user.id
  · rw [decision_eval_user1 ident sid n db user s w hu hs h1]
    cases ho : s.user2WantsContinue with
    | none =>
      refine ⟨_, _, rfl, rfl, ?_, ?_⟩
      · refine ⟨_, getSession_patch db sid _
          (by intro t; by_cases hc : s.user1Id = user.id <;> simp [hc]) s hs, ?_⟩
        simp only [if_pos h1]
      · intro _ h2c _
        exact absurd h2c (by simp)
    | some o =>
      dsimp only
      cases hw : (w && o) with
      | true =>
        refine ⟨_, _, rfl, rfl, ?_, ?_⟩
        · refine ⟨_, getSession_insertMatchState db sid n s _
            (by intro t; by_cases hc : s.user1Id = user.id <;> simp [hc]) hs, ?_⟩
          simp only [if_pos h1]
        · intro _ _ _
          exact matchesFor_insertMatchState db sid n s _
      | false =>
        refine ⟨_, _, rfl, rfl, ?_, ?_⟩
        · refine ⟨_, getSession_decisionEndState db sid n s _
            (by intro t; by_cases hc : s.user1Id = user.id <;> simp [hc]) hs, ?_⟩
          simp only [if_pos h1]
        · intro _ h2c hwc
          injection h2c with ho2
          rw [hwc, ho2] at hw
          simp at hw
  · have h2 : s.user2Id = user.id := hpart.resolve_left h1
    rw [decision_eval_user2 ident sid n db user s w hu hs h1 h2]
    cases ho : s.user1WantsContinue with
    | none =>
      refine ⟨_, _, rfl, rfl, ?_, ?_⟩
      · refine ⟨_, getSession_patch db sid _
          (by intro t; by_cases hc : s.user1Id = user.id <;> simp [hc]) s hs, ?_⟩
        simp only [if_neg h1]
      · intro h1c _ _
        exact absurd h1c (by simp)
    | some o =>
      dsimp only
      cases hw : (o && w) with
      | true =>
        refine ⟨_, _, rfl, rfl, ?_, ?_⟩
        · refine ⟨_, getSession_insertMatchState db sid n s _
            (by intro t; by_cases hc : s.user1Id = user.id <;> simp [hc]) hs, ?_⟩
          simp only [if_neg h1]
        · intro _ _ _
          exact matchesFor_insertMatchState db sid n s _
      | false =>
        refine ⟨_, _, rfl, rfl, ?_, ?_⟩
        · refine ⟨_, getSession_decisionEndState db sid n s _
            (by intro t; by_cases hc : s.user1Id = user.id <;> simp [hc]) hs, ?_⟩
          simp only [if_neg h1]
        · intro h1c _ hwc
          injection h1c with ho1
          rw [hwc, ho1] at hw
          simp at hw

/-- Concrete extended-phase session whose decision slots are both true
(post-match), for the C9 witness. -/
def sessBothTrue : ChatSession :=
  { sessAB with phase := .extended, user1WantsContinue := some true, user2WantsContinue := some true }

/-- Concrete database holding `sessBothTrue` and one existing match. -/
def dbBothTrue : DB :=
  { users := [userA, userB], chatSessions := [sessBothTrue], matchRecords := [matchAB]
    chatRequests := [], messages := [], nextId := 11 }

/-- C9 (witness). -/
theorem C9_decision_unguarded_witness :
    ∃ r db', makeDecision identA 2 true 7 dbBothTrue = .ok (r, db') ∧ r.success = true ∧
      (∃ s', getSession db' 2 = some s' ∧
        (if sessBothTrue.user1Id = userA.id then s'.user1WantsContinue else s'.user2WantsContinue) = some true) ∧
      (sessBothTrue.user1WantsContinue = some true → sessBothTrue.user2WantsContinue = some true → true = true →
        (matchesFor db' 2).length = (matchesFor dbBothTrue 2).length + 1) :=
  C9_decision_unguarded identA 7 dbBothTrue userA 2 sessBothTrue true
    (by rfl) (by rfl) (Or.inl (by rfl))

/-- C3: decision commutativity — for an active speed-dating session with
untouched decision slots, two decisions by the two participants in either
order resolve on the second call: both true yields `matchCreated:true` and
exactly one new Match linked to the session; any combination that is not
both true yields `matchCreated:false`, an ended session, and zero remaining
messages for the session. -/
theorem C3_decision_commutes (ident1 ident2 : Identity) (n1 n2 : Nat) (db : DB)
    (A B : User) (sid : Nat) (s : ChatSession) (d1 d2 : Bool)
    (huA : uniqueUser db ident1.subject = .ok (some A))
    (huB : uniqueUser db ident2.subject = .ok (some B))
    (hs : getSession db sid = some s)
    (_hstat : s.status = .active) (_hph : s.phase = .speed_dating)
    (hslot1 : s.user1WantsContinue = none) (hslot2 : s.user2WantsContinue = none)
    (hAB : A.id ≠ B.id)
    (horder : (A.id = s.user1Id ∧ B.id = s.user2Id) ∨ (A.id = s.user2Id ∧ B.id = s.user1Id)) :
    ∃ r1 db1 r2 db2,
      makeDecision ident1 sid d1 n1 db = .ok (r1, db1) ∧ r1.bothDecided = false ∧
      makeDecision ident2 sid d2 n2 db1 = .ok (r2, db2) ∧ r2.bothDecided = true ∧
      r2.matchCreated = (d1 && d2) ∧
      ((d1 && d2) = true → (matchesFor db2 sid).length = (matchesFor db sid).length + 1) ∧
      ((d1 && d2) = false → r2.status = .ended ∧
        (∃ s2, getSession db2 sid = some s2 ∧ s2.status = .ended) ∧
        messagesFor db2 sid = []) := by
  have hne12 : s.user1Id ≠ s.user2Id := by
    rcases horder with ⟨hA1, hB2⟩ | ⟨hA2, hB1⟩
    · exact fun hh => hAB (by rw [hA1, hB2, hh])
    · exact fun hh => hAB (by rw [hA2, hB1, hh])
  rcases horder with ⟨hA1, hB2⟩ | ⟨hA2, hB1⟩
  · rw [decision_eval_user1 ident1 sid n1 db A s d1 huA hs hA1.symm, hslot2]
    have hs1 : getSession (patchSession db sid
        (fun t => if s.user1Id = A.id then { t with status := .waiting_reveal, user1WantsContinue := some d1 }
          else { t with status := .waiting_reveal, user2WantsContinue := some d1 })) sid =
        some ({ s with status := .waiting_reveal, user1WantsContinue := some d1 }) :=
      (getSession_patch db sid _
        (by intro t; by_cases hc : s.user1Id = A.id <;> simp [hc]) s hs).trans
        (by rw [if_pos hA1.symm])
    have hsec := decision_eval_user2 ident2 sid n2
      (patchSession db sid
        (fun t => if s.user1Id = A.id then { t with status := .waiting_reveal, user1WantsContinue := some d1 }
          else { t with status := .waiting_reveal, user2WantsContinue := some d1 }))
      B ({ s with status := .waiting_reveal, user1WantsContinue := some d1 }) d2
      huB hs1 (fun hh => hAB (hA1.trans hh)) hB2.symm
    dsimp only at hsec
    cases hd : (d1 && d2) with
    | true =>
      rw [hd] at hsec
      refine ⟨_, _, _, _, rfl, rfl, hsec, rfl, rfl, ?_, ?_⟩
      · intro _
        exact matchesFor_insertMatchState _ sid n2 _ _
      · intro hcon
        exact absurd hcon (by decide)
    | false =>
      rw [hd] at hsec
      refine ⟨_, _, _, _, rfl, rfl, hsec, rfl, rfl, ?_, ?_⟩
      · intro hcon
        exact absurd hcon (by decide)
      · intro _
        refine ⟨rfl, ⟨_, getSession_decisionEndState _ sid n2 _ _
          (by intro t; by_cases hc : s.user1Id = B.id <;> simp [hc]) hs1, rfl⟩, ?_⟩
        exact messagesFor_decisionEndState _ sid n2 _ _
  · rw [decision_eval_user2 ident1 sid n1 db A s d1 huA hs
      (fun hh => hAB (hB1.trans hh).symm) hA2.symm, hslot1]
    have hs1 : getSession (patchSession db sid
        (fun t => if s.user1Id = A.id then { t with status := .waiting_reveal, user1WantsContinue := some d1 }
          else { t with status := .waiting_reveal, user2WantsContinue := some d1 })) sid =
        some ({ s with status := .waiting_reveal, user2WantsContinue := some d1 }) :=
      (getSession_patch db sid _
        (by intro t; by_cases hc : s.user1Id = A.id <;> simp [hc]) s hs).trans
        (by rw [if_neg (fun hh => hAB (hB1.trans hh).symm)])
    have hsec := decision_eval_user1 ident2 sid n2
      (patchSession db sid
        (fun t => if s.user1Id = A.id then { t with status := .waiting_reveal, user1WantsContinue := some d1 }
          else { t with status := .waiting_reveal, user2WantsContinue := some d1 }))
      B ({ s with status := .waiting_reveal, user2WantsContinue := some d1 }) d2
      huB hs1 hB1.symm
    dsimp only at hsec
    rw [Bool.and_comm d2 d1] at hsec
    cases hd : (d1 && d2) with
    | true =>
      rw [hd] at hsec
      refine ⟨_, _, _, _, rfl, rfl, hsec, rfl, rfl, ?_, ?_⟩
      · intro _
        exact matchesFor_insertMatchState _ sid n2 _ _
      · intro hcon
        exact absurd hcon (by decide)
    | false =>
      rw [hd] at hsec
      refine ⟨_, _, _, _, rfl, rfl, hsec, rfl, rfl, ?_, ?_⟩
      · intro hcon
        exact absurd hcon (by decide)
      · intro _
        refine ⟨rfl, ⟨_, getSession_decisionEndState _ sid n2 _ _
          (by intro t; by_cases hc : s.user1Id = B.id <;> simp [hc]) hs1, rfl⟩, ?_⟩
        exact messagesFor_decisionEndState _ sid n2 _ _

/-- C3 (witness). -/
theorem C3_decision_commutes_witness :
    ∃ r1 db1 r2 db2,
      makeDecision identA 2 true 1 dbPair = .ok (r1, db1) ∧ r1.bothDecided = false ∧
      makeDecision identB 2 true 2 db1 = .ok (r2, db2) ∧ r2.bothDecided = true ∧
      r2.matchCreated = (true && true) ∧
      ((true && true) = true → (matchesFor db2 2).length = (matchesFor dbPair 2).length + 1) ∧
      ((true && true) = false → r2.status = .ended ∧
        (∃ s2, getSession db2 2 = some s2 ∧ s2.status = .ended) ∧
        messagesFor db2 2 = []) :=
  C3_decision_commutes identA identB 1 2 dbPair userA userB 2 sessAB true true
    (by rfl) (by rfl) (by rfl) (by rfl) (by rfl) (by rfl) (by rfl) (by decide)
    (Or.inl ⟨by rfl, by rfl⟩)

/-- Appending a brand-new active session whose two participants have no
active session preserves both one-active-session invariants. -/
theorem inv_append_session (l : List ChatSession) (newS : ChatSession)
    (hu1 : ∀ uid, (l.filter (activeFor uid)).length ≤ 1)
    (hp1 : ∀ u v, (l.filter (pairActive u v)).length ≤ 1)
    (hNA : ∀ x ∈ l, ¬ (activeFor newS.user1Id x = true))
    (hNC : ∀ x ∈ l, ¬ (activeFor newS.user2Id x = true)) :
    (∀ uid, ((l ++ [newS]).filter (activeFor uid)).length ≤ 1) ∧
    (∀ u v, ((l ++ [newS]).filter (pairActive u v)).length ≤ 1) := by
  constructor
  · intro uid
    rw [List.filter_append]
    by_cases hnew : activeFor uid newS = true
    · have huid : newS.user1Id = uid ∨ newS.user2Id = uid := by
        simp [activeFor] at hnew
        exact hnew.1
      have hmain : l.filter (activeFor uid) = [] := by
        rw [List.filter_eq_nil_iff]
        intro x hx
        rcases huid with h | h
        · rw [← h]; exact hNA x hx
        · rw [← h]; exact hNC x hx
      rw [hmain]
      simp [hnew]
    · have hone : List.filter (activeFor uid) [newS] = [] := by
        simp [List.filter, hnew]
      rw [hone, List.append_nil]
      exact hu1 uid
  · intro u v
    rw [List.filter_append]
    by_cases hnew : pairActive u v newS = true
    · have hcase : (newS.user1Id = u ∧ newS.user2Id = v) ∨ (newS.user1Id = v ∧ newS.user2Id = u) := by
        simp [pairActive] at hnew
        exact hnew.1
      have hmain : l.filter (pairActive u v) = [] := by
        rw [List.filter_eq_nil_iff]
        intro x hx hpx
        simp [pairActive] at hpx
        apply hNA x hx
        simp [activeFor]
        refine ⟨?_, hpx.2⟩
        rcases hcase with ⟨hcu, hcv⟩ | ⟨hcu, hcv⟩ <;> rcases hpx.1 with ⟨ha, hb⟩ | ⟨ha, hb⟩ <;> omega
      rw [hmain]
      simp [hnew]
    · have hone : List.filter (pairActive u v) [newS] = [] := by
        simp [List.filter, hnew]
      rw [hone, List.append_nil]
      exact hp1 u v

/-- C1 (amended): a committed `queue.join` preserves the invariant: if
beforehand every user is in at most one active session and every pair has at
most one active session, the same holds afterwards (the claim-first,
verify-second protocol never pairs a claimed candidate twice). -/
theorem C1_join_preserves (ident : Identity) (now : Nat) (db : DB)
    (h1 : invUser db) (h2 : invPair db) (r : JoinResult) (db' : DB)
    (hj : join ident now db = .ok (r, db')) : invUser db' ∧ invPair db' := by
  unfold join at hj
  split at hj
  · exact absurd hj (by simp)
  · rename_i ou hou
    cases ou with
    | some u =>
      dsimp only at hj
      split at hj
      · exact absurd hj (by simp)
      · rename_i hNAeq
        split at hj
        · rename_i c hcand
          split at hj
          · injection hj with hj1
            injection hj1 with hjr hjdb
            subst hjdb
            exact ⟨h1, h2⟩
          · rename_i hNCeq
            injection hj with hj1
            injection hj1 with hjr hjdb
            subst hjdb
            have hNA : ∀ x ∈ db.chatSessions, ¬ (activeFor u.id x = true) :=
              List.find?_eq_none.mp hNAeq
            have hNC : ∀ x ∈ db.chatSessions, ¬ (activeFor c.id x = true) :=
              List.find?_eq_none.mp hNCeq
            exact inv_append_session db.chatSessions
              ⟨db.nextId, u.id, c.id, .speed_dating, .active, now,
                some (now + 15 * 60 * 1000), none, none, none, none, none⟩
              h1 h2 hNA hNC
        · injection hj with hj1
          injection hj1 with hjr hjdb
          subst hjdb
          exact ⟨h1, h2⟩
    | none =>
      dsimp only at hj
      split at hj
      · exact absurd hj (by simp)
      · rename_i hNAeq
        split at hj
        · rename_i c hcand
          split at hj
          · injection hj with hj1
            injection hj1 with hjr hjdb
            subst hjdb
            exact ⟨h1, h2⟩
          · rename_i hNCeq
            injection hj with hj1
            injection hj1 with hjr hjdb
            subst hjdb
            have hNA : ∀ x ∈ db.chatSessions, ¬ (activeFor db.nextId x = true) :=
              List.find?_eq_none.mp hNAeq
            have hNC : ∀ x ∈ db.chatSessions, ¬ (activeFor c.id x = true) :=
              List.find?_eq_none.mp hNCeq
            exact inv_append_session db.chatSessions
              ⟨db.nextId + 1, db.nextId, c.id, .speed_dating, .active, now,
                some (now + 15 * 60 * 1000), none, none, none, none, none⟩
              h1 h2 hNA hNC
        · injection hj with hj1
          injection hj1 with hjr hjdb
          subst hjdb
          exact ⟨h1, h2⟩

/-- Result of the concrete `queue.join` call used by the C1 witness. -/
def c1wPair : JoinResult × DB :=
  (join identA 0 dbQueue).toOption.getD ({ matched := false, chatSessionId := none }, dbEmpty)

/-- C1 (witness for the amended theorem). -/
theorem C1_join_preserves_witness : invUser c1wPair.2 ∧ invPair c1wPair.2 :=
  C1_join_preserves identA 0 dbQueue
    (by intro uid; simp [activeSessionsOf, dbQueue])
    (by intro u v; simp [dbQueue])
    c1wPair.1 c1wPair.2 (by rfl)

/-- The operation trace refuting C1: two users pair and split with opposite
decisions, the declined user re-queues and pairs with a third user, and then
the original partner re-submits `makeDecision(true)` on the ended session,
re-activating it — its counterpart now participates in two active
sessions. -/
def c1Trace : List Op :=
  [ .join identA 0
  , .join identB 0
  , .makeDecision identB 2 true 0
  , .makeDecision identA 2 false 0
  , .join identA 0
  , .join identC 0
  , .makeDecision identA 2 true 0 ]

/-- C1 (counterexample): the one-active-session-per-user invariant does not
hold in every state reachable by the core operations — after `c1Trace` the
user created by the first join participates in two sessions with
status=active. -/
theorem C1_invariant_fails :
    ¬ ∀ ops : List Op, invUser (runOps ops) ∧ invPair (runOps ops) := by
  intro h
  exact absurd ((h c1Trace).1 0) (by decide)

end DateApp
